import Mathlib

/-!
# Selection-ID draw utilities (`select_draw_utils.cc`)

A shallow embedding of the functions of
`source/blender/draw/engines/select/select_draw_utils.cc`:

* `select_id_get_object_select_mode`
* `check_ob_drawface_dot`
* `draw_select_id_edit_mesh`
* `draw_select_id_mesh`
* `select_id_draw_object`

C integers of type `short`, `char` and `int` are mathematical integers (`Int`);
values of type `uint` are natural numbers, and every `uint` addition is reduced
modulo `2^32`.  The conversions `uint + int` and `int(uint)` of the source are
the explicit functions `uint_of_int` and `int_of_uint`.

The sub-passes of `SELECTID_Instance` are command lists: `push_constant` and
`draw` append one command to the pass they are called on.  The three `uint *`
out-parameters are three fields of the state that is threaded through the
functions (the three pointers are assumed to point to distinct objects).
-/

namespace SelectDrawUtils

/-! ## Machine arithmetic -/

/-- Conversion of a C `int` to `uint` (reduction modulo `2^32`), as it happens
to the right operand of `initial_offset + em->bm->totface`. -/
def uint_of_int (c : Int) : Nat := (c % 4294967296).toNat

/-- Addition of two `uint` values. -/
def uint_add (a b : Nat) : Nat := (a + b) % 4294967296

/-- The conversion `int(x)` of a `uint` value `x`: the value itself below
`2^31` and the value minus `2^32` from there on (two's complement, as C++20
defines it and the compilers of earlier standards implement it). -/
def int_of_uint (x : Nat) : Int :=
  if x % 4294967296 < 2147483648 then ((x % 4294967296 : Nat) : Int)
  else ((x % 4294967296 : Nat) : Int) - 4294967296

/-! ## Data model -/

/-- The GPU batches requested from the mesh batch cache
(`DRW_mesh_batch_cache_get_*`), all of the object's mesh. -/
inductive Batch where
  | triangles_with_select_id
  | facedots_with_select_id
  | surface
  | edges_with_select_id
  | verts_with_select_id
  deriving DecidableEq

/-- One recorded command of a `PassSimple::Sub`. -/
inductive Command where
  | push_constant (name : String) (data : Int)
  | draw (batch : Batch) (res_handle : Nat)
  deriving DecidableEq

/-- A sub-pass: the commands recorded so far, oldest first. -/
abbrev PassSub := List Command

/-- The method `PassSimple::Sub::push_constant(name, int)`. -/
def PassSub.push_constant (pass : PassSub) (name : String) (data : Int) : PassSub :=
  pass ++ [Command.push_constant name data]

/-- The method `PassSimple::Sub::draw(batch, res_handle)`. -/
def PassSub.draw (pass : PassSub) (batch : Batch) (res_handle : Nat) : PassSub :=
  pass ++ [Command.draw batch res_handle]

/-- The four sub-passes of `SELECTID_Instance` used by this file. -/
structure SELECTID_Instance where
  select_face_flat : PassSub
  select_face_uniform : PassSub
  select_edge : PassSub
  select_vert : PassSub
  deriving DecidableEq

/-- The part of `BMesh` that is read: the element totals (C `int`). -/
structure BMesh where
  totvert : Int
  totedge : Int
  totface : Int
  deriving DecidableEq

/-- The part of `Mesh` that is read.  `edit_mesh` is
`mesh.runtime->edit_mesh` (with its `bm`), `none` for a null pointer. -/
structure Mesh where
  verts_num : Int
  edges_num : Int
  faces_num : Int
  editflag : Int
  edit_mesh : Option BMesh
  deriving DecidableEq

/-- The part of `Object` that is read.  `data` is `ob->data` seen as a mesh and
`original_data` is `DEG_get_original_object(ob)->data`. -/
structure Object where
  type : Int
  dt : Int
  mode : Int
  data : Mesh
  original_data : Mesh
  deriving DecidableEq

/-- The tool settings of a scene. -/
structure ToolSettings where
  selectmode : Int

/-- The part of `Scene` that is read. -/
structure Scene where
  toolsettings : ToolSettings

/-- The part of `View3D` that is read. -/
structure View3D where
  shading_type : Int
  shading_flag : Int
  overlay_edit_flag : Int

/-- Enumerators and macros that the file uses and that are declared in headers
outside of it.  They are parameters of every function below. -/
structure Env where
  OB_MODE_WEIGHT_PAINT : Int
  OB_MODE_VERTEX_PAINT : Int
  OB_MODE_TEXTURE_PAINT : Int
  ME_EDIT_PAINT_VERT_SEL : Int
  SCE_SELECT_VERTEX : Int
  SCE_SELECT_EDGE : Int
  SCE_SELECT_FACE : Int
  OB_SOLID : Int
  OB_MESH : Int
  V3D_OVERLAY_EDIT_FACE_DOT : Int
  USE_CAGE_OCCLUSION : Bool
  XRAY_FLAG_ENABLED : View3D → Bool

/-- The state the drawing functions act on: the instance with its passes and
the targets of `r_vert_offset`, `r_edge_offset` and `r_face_offset`. -/
structure DrawState where
  inst : SELECTID_Instance
  r_vert_offset : Nat
  r_edge_offset : Nat
  r_face_offset : Nat
  deriving DecidableEq

/-! ## The functions of the file -/

/-- Lines 29-52.  The result is a `short`; the conversions to it from the
`char` field `selectmode` and from the enumerators keep the value. -/
def select_id_get_object_select_mode (K : Env) (scene : Scene) (ob : Object) : Int :=
  if Int.land ob.mode (Int.lor (Int.lor K.OB_MODE_WEIGHT_PAINT K.OB_MODE_VERTEX_PAINT) K.OB_MODE_TEXTURE_PAINT) ≠ 0 then
    let me_orig := ob.original_data
    if Int.land me_orig.editflag K.ME_EDIT_PAINT_VERT_SEL ≠ 0 then
      K.SCE_SELECT_VERTEX
    else
      K.SCE_SELECT_FACE
  else
    scene.toolsettings.selectmode

/-- Lines 54-65. -/
def check_ob_drawface_dot (K : Env) (select_mode : Int) (v3d : View3D) (dt : Int) : Bool :=
  if Int.land select_mode K.SCE_SELECT_FACE ≠ 0 then
    if dt < K.OB_SOLID ∨ K.XRAY_FLAG_ENABLED v3d = true then
      true
    else if Int.land v3d.overlay_edit_flag K.V3D_OVERLAY_EDIT_FACE_DOT ≠ 0 then
      true
    else
      false
  else
    false

/-- Lines 67-131.  `bm` is `em->bm` of the edit mesh of `ob->data`;
`BM_mesh_elem_table_ensure` does not change the totals and is left out. -/
def draw_select_id_edit_mesh (K : Env) (st : DrawState) (ob : Object) (bm : BMesh)
    (res_handle : Nat) (select_mode : Int) (draw_facedot : Bool)
    (initial_offset : Nat) : DrawState :=
  let st : DrawState :=
    if Int.land select_mode K.SCE_SELECT_FACE ≠ 0 then
      let face_sub := st.inst.select_face_flat
      let face_sub := face_sub.push_constant "offset" (int_of_uint initial_offset)
      let face_sub := face_sub.draw Batch.triangles_with_select_id res_handle
      let face_sub :=
        if draw_facedot then face_sub.draw Batch.facedots_with_select_id res_handle
        else face_sub
      { st with
        inst := { st.inst with select_face_flat := face_sub }
        r_face_offset := uint_add initial_offset (uint_of_int bm.totface) }
    else
      let st : DrawState :=
        if ob.dt ≥ K.OB_SOLID then
          let geom_faces :=
            if K.USE_CAGE_OCCLUSION then Batch.triangles_with_select_id else Batch.surface
          { st with
            inst := { st.inst with
              select_face_uniform := st.inst.select_face_uniform.draw geom_faces res_handle } }
        else st
      { st with r_face_offset := initial_offset }
  let st : DrawState :=
    if Int.land select_mode K.SCE_SELECT_EDGE ≠ 0 then
      let select_edge := st.inst.select_edge.push_constant "offset" (int_of_uint st.r_face_offset)
      let select_edge := select_edge.draw Batch.edges_with_select_id res_handle
      { st with
        inst := { st.inst with select_edge := select_edge }
        r_edge_offset := uint_add st.r_face_offset (uint_of_int bm.totedge) }
    else
      { st with r_edge_offset := st.r_face_offset }
  if Int.land select_mode K.SCE_SELECT_VERTEX ≠ 0 then
    let select_vert := st.inst.select_vert.push_constant "offset" (int_of_uint st.r_edge_offset)
    let select_vert := select_vert.draw Batch.verts_with_select_id res_handle
    { st with
      inst := { st.inst with select_vert := select_vert }
      r_vert_offset := uint_add st.r_edge_offset (uint_of_int bm.totvert) }
  else
    { st with r_vert_offset := st.r_edge_offset }

/-- Lines 133-177. -/
def draw_select_id_mesh (K : Env) (st : DrawState) (ob : Object)
    (res_handle : Nat) (select_mode : Int) (initial_offset : Nat) : DrawState :=
  let mesh := ob.data
  let geom_faces := Batch.triangles_with_select_id
  let st : DrawState :=
    if Int.land select_mode K.SCE_SELECT_FACE ≠ 0 then
      let select_face_flat :=
        st.inst.select_face_flat.push_constant "offset" (int_of_uint initial_offset)
      let select_face_flat := select_face_flat.draw geom_faces res_handle
      { st with
        inst := { st.inst with select_face_flat := select_face_flat }
        r_face_offset := uint_add initial_offset (uint_of_int mesh.faces_num) }
    else
      { st with
        inst := { st.inst with
          select_face_uniform := st.inst.select_face_uniform.draw geom_faces res_handle }
        r_face_offset := initial_offset }
  let st : DrawState :=
    if Int.land select_mode K.SCE_SELECT_EDGE ≠ 0 then
      let select_edge := st.inst.select_edge.push_constant "offset" (int_of_uint st.r_face_offset)
      let select_edge := select_edge.draw Batch.edges_with_select_id res_handle
      { st with
        inst := { st.inst with select_edge := select_edge }
        r_edge_offset := uint_add st.r_face_offset (uint_of_int mesh.edges_num) }
    else
      { st with r_edge_offset := st.r_face_offset }
  if Int.land select_mode K.SCE_SELECT_VERTEX ≠ 0 then
    let select_vert := st.inst.select_vert.push_constant "offset" (int_of_uint st.r_edge_offset)
    let select_vert := select_vert.draw Batch.verts_with_select_id res_handle
    { st with
      inst := { st.inst with select_vert := select_vert }
      r_vert_offset := uint_add st.r_edge_offset (uint_of_int mesh.verts_num) }
  else
    { st with r_vert_offset := st.r_edge_offset }

/-- The condition of `BLI_assert(initial_offset > 0)` on line 189.  The macro
is a check of debug builds only; it does not change what the function does. -/
def select_id_draw_object_assert (initial_offset : Nat) : Bool :=
  decide (initial_offset > 0)

/-- Lines 179-222.  The `switch` has no `default`: the cases
`OB_CURVES_LEGACY` and `OB_SURF` only `break`, like every type without a
case. -/
def select_id_draw_object (K : Env) (st : DrawState) (v3d : View3D) (ob : Object)
    (res_handle : Nat) (select_mode : Int) (initial_offset : Nat) : DrawState :=
  if ob.type = K.OB_MESH then
    let mesh := ob.data
    match mesh.edit_mesh with
    | some bm =>
      let draw_facedot := check_ob_drawface_dot K select_mode v3d ob.dt
      draw_select_id_edit_mesh K st ob bm res_handle select_mode draw_facedot initial_offset
    | none =>
      draw_select_id_mesh K st ob res_handle select_mode initial_offset
  else
    st

/-! ## Concrete environment, used to evaluate the functions -/

/-- An instance of the macro `XRAY_FLAG_ENABLED`, in the shape it has in
`DNA_view3d_types.h`: it tests the X-ray bit of the shading flag, one bit for
wireframe shading and another bit otherwise. -/
def sample_xray_flag_enabled (v3d : View3D) : Bool :=
  decide (Int.land v3d.shading_flag (if v3d.shading_type = 2 then 256 else 2) ≠ 0)

/-- A concrete environment, with enumerator values in the style of the DNA
headers (distinct single bits for the flags).  The general theorems hold for
every environment; this one serves to evaluate the functions. -/
def sample_env : Env where
  OB_MODE_WEIGHT_PAINT := 8
  OB_MODE_VERTEX_PAINT := 4
  OB_MODE_TEXTURE_PAINT := 16
  ME_EDIT_PAINT_VERT_SEL := 32
  SCE_SELECT_VERTEX := 1
  SCE_SELECT_EDGE := 2
  SCE_SELECT_FACE := 4
  OB_SOLID := 3
  OB_MESH := 1
  V3D_OVERLAY_EDIT_FACE_DOT := 128
  USE_CAGE_OCCLUSION := true
  XRAY_FLAG_ENABLED := sample_xray_flag_enabled

/-- An instance whose passes are still empty. -/
def empty_inst : SELECTID_Instance := ⟨[], [], [], []⟩

/-- A state with empty passes and the three offsets set to `7`, `8`, `9`. -/
def sample_state : DrawState := ⟨empty_inst, 7, 8, 9⟩

/-- A view with solid shading, X-ray off and the face-dot overlay off. -/
def sample_v3d : View3D := ⟨3, 0, 0⟩

/-- A mesh with 6 faces, 12 edges, 8 vertices and no edit mesh. -/
def sample_mesh : Mesh := ⟨8, 12, 6, 0, none⟩

/-- The same mesh with an edit mesh of 5 faces, 9 edges and 6 vertices. -/
def sample_edit_mesh : Mesh := ⟨8, 12, 6, 0, some ⟨6, 9, 5⟩⟩

/-- A solid-drawn mesh object in object mode. -/
def sample_ob : Object := ⟨1, 3, 0, sample_mesh, sample_mesh⟩

/-- A solid-drawn mesh object in edit mode. -/
def sample_edit_ob : Object := ⟨1, 3, 1, sample_edit_mesh, sample_mesh⟩

/-- A wire-drawn mesh object in edit mode. -/
def sample_wire_edit_ob : Object := ⟨1, 2, 1, sample_edit_mesh, sample_mesh⟩

/-- A legacy curve object (`OB_CURVES_LEGACY`). -/
def sample_curve_ob : Object := ⟨2, 3, 0, sample_mesh, sample_mesh⟩

/-! ## Notions used to state the properties -/

/-- The number `F` of faces that get an ID: `totface` of the BMesh when the
mesh has an edit mesh, `faces_num` of the mesh otherwise. -/
def face_count (mesh : Mesh) : Int :=
  match mesh.edit_mesh with
  | some bm => bm.totface
  | none => mesh.faces_num

/-- The number `E` of edges that get an ID: `totedge` of the BMesh when the
mesh has an edit mesh, `edges_num` of the mesh otherwise. -/
def edge_count (mesh : Mesh) : Int :=
  match mesh.edit_mesh with
  | some bm => bm.totedge
  | none => mesh.edges_num

/-- The number `V` of vertices that get an ID: `totvert` of the BMesh when
the mesh has an edit mesh, `verts_num` of the mesh otherwise. -/
def vert_count (mesh : Mesh) : Int :=
  match mesh.edit_mesh with
  | some bm => bm.totvert
  | none => mesh.verts_num

/-- The three kinds of mesh element that are given selection IDs. -/
inductive ElemKind where
  | face
  | edge
  | vert
  deriving DecidableEq

/-- The ID range of an element kind after a call with `initial_offset` that
returned the offsets of `r`: `id` lies in `[initial_offset, r_face_offset)`
for faces, in `[r_face_offset, r_edge_offset)` for edges and in
`[r_edge_offset, r_vert_offset)` for vertices. -/
def in_id_range (initial_offset : Nat) (r : DrawState) (k : ElemKind) (id : Nat) : Prop :=
  match k with
  | ElemKind.face => initial_offset ≤ id ∧ id < r.r_face_offset
  | ElemKind.edge => r.r_face_offset ≤ id ∧ id < r.r_edge_offset
  | ElemKind.vert => r.r_edge_offset ≤ id ∧ id < r.r_vert_offset

/-- The commands a call has appended to a pass: what `after` holds beyond the
length of `before`. -/
def issued (before after : PassSub) : List Command :=
  after.drop before.length

/-- The values of the push constants named "offset" in a command list. -/
def offset_constants (cmds : List Command) : List Int :=
  cmds.filterMap fun c =>
    match c with
    | Command.push_constant name data => if name = "offset" then some data else none
    | Command.draw _ _ => none

/-- The batches drawn by a command list, in order. -/
def drawn_batches (cmds : List Command) : List Batch :=
  cmds.filterMap fun c =>
    match c with
    | Command.push_constant _ _ => none
    | Command.draw batch _ => some batch

/-- How many draws of `batch` the four passes of an instance hold. -/
def count_draws (inst : SELECTID_Instance) (batch : Batch) : Nat :=
  (drawn_batches inst.select_face_flat).count batch
    + (drawn_batches inst.select_face_uniform).count batch
    + (drawn_batches inst.select_edge).count batch
    + (drawn_batches inst.select_vert).count batch

/-- How many commands of any kind the four passes of an instance hold. -/
def count_commands (inst : SELECTID_Instance) : Nat :=
  inst.select_face_flat.length + inst.select_face_uniform.length
    + inst.select_edge.length + inst.select_vert.length

/-- The "offset" constants a call has pushed on the four passes, given the
instance before and after the call. -/
def issued_offset_constants (before after : SELECTID_Instance) : List Int :=
  offset_constants (issued before.select_face_flat after.select_face_flat)
    ++ offset_constants (issued before.select_face_uniform after.select_face_uniform)
    ++ offset_constants (issued before.select_edge after.select_edge)
    ++ offset_constants (issued before.select_vert after.select_vert)

/-! ## Arithmetic lemmas -/

theorem uint_add_uint_of_int_cast (a : Nat) (c : Int) :
    ((uint_add a (uint_of_int c) : Nat) : Int) = ((a : Int) + c) % 4294967296 := by
  unfold uint_add uint_of_int
  have h : (0 : Int) ≤ c % 4294967296 := Int.emod_nonneg _ (by norm_num)
  push_cast
  rw [Int.toNat_of_nonneg h]
  omega

theorem uint_add_uint_of_int_eq (a : Nat) (c : Int) (h0 : 0 ≤ c)
    (h : (a : Int) + c < 4294967296) :
    uint_add a (uint_of_int c) = a + c.toNat := by
  have h1 := uint_add_uint_of_int_cast a c
  omega

theorem uint_add_lt (a b : Nat) : uint_add a b < 4294967296 := by
  unfold uint_add
  omega

theorem int_of_uint_eq_self (x : Nat) (h : x < 2147483648) : int_of_uint x = (x : Int) := by
  unfold int_of_uint
  split_ifs <;> omega

theorem int_of_uint_emod (x : Nat) : int_of_uint x % 4294967296 = ((x % 4294967296 : Nat) : Int) := by
  unfold int_of_uint
  split_ifs <;> omega

theorem uint_of_int_int_of_uint (x : Nat) :
    uint_of_int (int_of_uint x) = x % 4294967296 := by
  unfold uint_of_int int_of_uint
  split_ifs <;> omega

theorem int_of_uint_ne_zero (x : Nat) (h0 : 0 < x) (h : x < 4294967296) : int_of_uint x ≠ 0 := by
  unfold int_of_uint
  split_ifs <;> omega

/-! ## Closed forms of the two drawing functions -/

theorem draw_select_id_mesh_eq (K : Env) (st : DrawState) (ob : Object)
    (res_handle : Nat) (select_mode : Int) (initial_offset : Nat) :
    draw_select_id_mesh K st ob res_handle select_mode initial_offset =
      let face_offset :=
        if Int.land select_mode K.SCE_SELECT_FACE ≠ 0 then
          uint_add initial_offset (uint_of_int ob.data.faces_num)
        else initial_offset
      let edge_offset :=
        if Int.land select_mode K.SCE_SELECT_EDGE ≠ 0 then
          uint_add face_offset (uint_of_int ob.data.edges_num)
        else face_offset
      let vert_offset :=
        if Int.land select_mode K.SCE_SELECT_VERTEX ≠ 0 then
          uint_add edge_offset (uint_of_int ob.data.verts_num)
        else edge_offset
      { inst :=
          { select_face_flat := st.inst.select_face_flat ++
              (if Int.land select_mode K.SCE_SELECT_FACE ≠ 0 then
                [Command.push_constant "offset" (int_of_uint initial_offset),
                  Command.draw Batch.triangles_with_select_id res_handle]
              else [])
            select_face_uniform := st.inst.select_face_uniform ++
              (if Int.land select_mode K.SCE_SELECT_FACE ≠ 0 then []
              else [Command.draw Batch.triangles_with_select_id res_handle])
            select_edge := st.inst.select_edge ++
              (if Int.land select_mode K.SCE_SELECT_EDGE ≠ 0 then
                [Command.push_constant "offset" (int_of_uint face_offset),
                  Command.draw Batch.edges_with_select_id res_handle]
              else [])
            select_vert := st.inst.select_vert ++
              (if Int.land select_mode K.SCE_SELECT_VERTEX ≠ 0 then
                [Command.push_constant "offset" (int_of_uint edge_offset),
                  Command.draw Batch.verts_with_select_id res_handle]
              else []) }
        r_vert_offset := vert_offset
        r_edge_offset := edge_offset
        r_face_offset := face_offset } := by
  unfold draw_select_id_mesh
  by_cases hF : Int.land select_mode K.SCE_SELECT_FACE = 0 <;>
  by_cases hE : Int.land select_mode K.SCE_SELECT_EDGE = 0 <;>
  by_cases hV : Int.land select_mode K.SCE_SELECT_VERTEX = 0 <;>
  simp [hF, hE, hV, PassSub.push_constant, PassSub.draw]

theorem draw_select_id_edit_mesh_eq (K : Env) (st : DrawState) (ob : Object) (bm : BMesh)
    (res_handle : Nat) (select_mode : Int) (draw_facedot : Bool) (initial_offset : Nat) :
    draw_select_id_edit_mesh K st ob bm res_handle select_mode draw_facedot initial_offset =
      let face_offset :=
        if Int.land select_mode K.SCE_SELECT_FACE ≠ 0 then
          uint_add initial_offset (uint_of_int bm.totface)
        else initial_offset
      let edge_offset :=
        if Int.land select_mode K.SCE_SELECT_EDGE ≠ 0 then
          uint_add face_offset (uint_of_int bm.totedge)
        else face_offset
      let vert_offset :=
        if Int.land select_mode K.SCE_SELECT_VERTEX ≠ 0 then
          uint_add edge_offset (uint_of_int bm.totvert)
        else edge_offset
      { inst :=
          { select_face_flat := st.inst.select_face_flat ++
              (if Int.land select_mode K.SCE_SELECT_FACE ≠ 0 then
                [Command.push_constant "offset" (int_of_uint initial_offset),
                  Command.draw Batch.triangles_with_select_id res_handle] ++
                (if draw_facedot = true then
                  [Command.draw Batch.facedots_with_select_id res_handle]
                else [])
              else [])
            select_face_uniform := st.inst.select_face_uniform ++
              (if Int.land select_mode K.SCE_SELECT_FACE ≠ 0 then []
              else if ob.dt ≥ K.OB_SOLID then
                [Command.draw
                  (if K.USE_CAGE_OCCLUSION = true then Batch.triangles_with_select_id
                    else Batch.surface) res_handle]
              else [])
            select_edge := st.inst.select_edge ++
              (if Int.land select_mode K.SCE_SELECT_EDGE ≠ 0 then
                [Command.push_constant "offset" (int_of_uint face_offset),
                  Command.draw Batch.edges_with_select_id res_handle]
              else [])
            select_vert := st.inst.select_vert ++
              (if Int.land select_mode K.SCE_SELECT_VERTEX ≠ 0 then
                [Command.push_constant "offset" (int_of_uint edge_offset),
                  Command.draw Batch.verts_with_select_id res_handle]
              else []) }
        r_vert_offset := vert_offset
        r_edge_offset := edge_offset
        r_face_offset := face_offset } := by
  unfold draw_select_id_edit_mesh
  by_cases hF : Int.land select_mode K.SCE_SELECT_FACE = 0 <;>
  by_cases hE : Int.land select_mode K.SCE_SELECT_EDGE = 0 <;>
  by_cases hV : Int.land select_mode K.SCE_SELECT_VERTEX = 0 <;>
  by_cases hD : ob.dt ≥ K.OB_SOLID <;>
  cases draw_facedot <;>
  simp [hF, hE, hV, hD, PassSub.push_constant, PassSub.draw]

/-! ## Closed forms of `select_id_draw_object` on a mesh object -/

theorem face_offset_eq (K : Env) (st : DrawState) (v3d : View3D) (ob : Object)
    (res_handle : Nat) (select_mode : Int) (initial_offset : Nat) (h_mesh : ob.type = K.OB_MESH) :
    (select_id_draw_object K st v3d ob res_handle select_mode initial_offset).r_face_offset =
      if Int.land select_mode K.SCE_SELECT_FACE ≠ 0 then
        uint_add initial_offset (uint_of_int (face_count ob.data))
      else initial_offset := by
  rcases h : ob.data.edit_mesh with _ | bm <;>
    simp [select_id_draw_object, h_mesh, h, draw_select_id_mesh_eq, draw_select_id_edit_mesh_eq,
      face_count, edge_count, vert_count]

theorem edge_offset_eq (K : Env) (st : DrawState) (v3d : View3D) (ob : Object)
    (res_handle : Nat) (select_mode : Int) (initial_offset : Nat) (h_mesh : ob.type = K.OB_MESH) :
    (select_id_draw_object K st v3d ob res_handle select_mode initial_offset).r_edge_offset =
      if Int.land select_mode K.SCE_SELECT_EDGE ≠ 0 then
        uint_add (select_id_draw_object K st v3d ob res_handle select_mode initial_offset).r_face_offset
          (uint_of_int (edge_count ob.data))
      else (select_id_draw_object K st v3d ob res_handle select_mode initial_offset).r_face_offset := by
  rcases h : ob.data.edit_mesh with _ | bm <;>
    simp [select_id_draw_object, h_mesh, h, draw_select_id_mesh_eq, draw_select_id_edit_mesh_eq,
      face_count, edge_count, vert_count]

theorem vert_offset_eq (K : Env) (st : DrawState) (v3d : View3D) (ob : Object)
    (res_handle : Nat) (select_mode : Int) (initial_offset : Nat) (h_mesh : ob.type = K.OB_MESH) :
    (select_id_draw_object K st v3d ob res_handle select_mode initial_offset).r_vert_offset =
      if Int.land select_mode K.SCE_SELECT_VERTEX ≠ 0 then
        uint_add (select_id_draw_object K st v3d ob res_handle select_mode initial_offset).r_edge_offset
          (uint_of_int (vert_count ob.data))
      else (select_id_draw_object K st v3d ob res_handle select_mode initial_offset).r_edge_offset := by
  rcases h : ob.data.edit_mesh with _ | bm <;>
    simp [select_id_draw_object, h_mesh, h, draw_select_id_mesh_eq, draw_select_id_edit_mesh_eq,
      face_count, edge_count, vert_count]

theorem select_face_flat_eq (K : Env) (st : DrawState) (v3d : View3D) (ob : Object)
    (res_handle : Nat) (select_mode : Int) (initial_offset : Nat) (h_mesh : ob.type = K.OB_MESH) :
    (select_id_draw_object K st v3d ob res_handle select_mode initial_offset).inst.select_face_flat =
      st.inst.select_face_flat ++
        (if Int.land select_mode K.SCE_SELECT_FACE ≠ 0 then
          [Command.push_constant "offset" (int_of_uint initial_offset),
            Command.draw Batch.triangles_with_select_id res_handle] ++
          (if ob.data.edit_mesh.isSome = true ∧
              check_ob_drawface_dot K select_mode v3d ob.dt = true then
            [Command.draw Batch.facedots_with_select_id res_handle]
          else [])
        else []) := by
  rcases h : ob.data.edit_mesh with _ | bm <;>
    simp [select_id_draw_object, h_mesh, h, draw_select_id_mesh_eq, draw_select_id_edit_mesh_eq,
      face_count, edge_count, vert_count]

theorem select_face_uniform_eq (K : Env) (st : DrawState) (v3d : View3D) (ob : Object)
    (res_handle : Nat) (select_mode : Int) (initial_offset : Nat) (h_mesh : ob.type = K.OB_MESH) :
    (select_id_draw_object K st v3d ob res_handle select_mode initial_offset).inst.select_face_uniform =
      st.inst.select_face_uniform ++
        (if Int.land select_mode K.SCE_SELECT_FACE ≠ 0 then []
        else if ob.data.edit_mesh.isSome = true then
          (if ob.dt ≥ K.OB_SOLID then
            [Command.draw
              (if K.USE_CAGE_OCCLUSION = true then Batch.triangles_with_select_id
                else Batch.surface) res_handle]
          else [])
        else [Command.draw Batch.triangles_with_select_id res_handle]) := by
  rcases h : ob.data.edit_mesh with _ | bm <;>
    simp [select_id_draw_object, h_mesh, h, draw_select_id_mesh_eq, draw_select_id_edit_mesh_eq,
      face_count, edge_count, vert_count]

theorem select_edge_eq (K : Env) (st : DrawState) (v3d : View3D) (ob : Object)
    (res_handle : Nat) (select_mode : Int) (initial_offset : Nat) (h_mesh : ob.type = K.OB_MESH) :
    (select_id_draw_object K st v3d ob res_handle select_mode initial_offset).inst.select_edge =
      st.inst.select_edge ++
        (if Int.land select_mode K.SCE_SELECT_EDGE ≠ 0 then
          [Command.push_constant "offset"
              (int_of_uint (select_id_draw_object K st v3d ob res_handle select_mode initial_offset).r_face_offset),
            Command.draw Batch.edges_with_select_id res_handle]
        else []) := by
  rcases h : ob.data.edit_mesh with _ | bm <;>
    simp [select_id_draw_object, h_mesh, h, draw_select_id_mesh_eq, draw_select_id_edit_mesh_eq,
      face_count, edge_count, vert_count]

theorem select_vert_eq (K : Env) (st : DrawState) (v3d : View3D) (ob : Object)
    (res_handle : Nat) (select_mode : Int) (initial_offset : Nat) (h_mesh : ob.type = K.OB_MESH) :
    (select_id_draw_object K st v3d ob res_handle select_mode initial_offset).inst.select_vert =
      st.inst.select_vert ++
        (if Int.land select_mode K.SCE_SELECT_VERTEX ≠ 0 then
          [Command.push_constant "offset"
              (int_of_uint (select_id_draw_object K st v3d ob res_handle select_mode initial_offset).r_edge_offset),
            Command.draw Batch.verts_with_select_id res_handle]
        else []) := by
  rcases h : ob.data.edit_mesh with _ | bm <;>
    simp [select_id_draw_object, h_mesh, h, draw_select_id_mesh_eq, draw_select_id_edit_mesh_eq,
      face_count, edge_count, vert_count]

theorem issued_append (before new : List Command) : issued before (before ++ new) = new := by
  simp [issued]

/-! ## Bit tests on integers -/

theorem int_eq_zero_iff_testBit (n : Int) : n = 0 ↔ ∀ k, Int.testBit n k = false := by
  constructor
  · intro h k
    subst h
    exact Nat.zero_testBit k
  · intro h
    cases n with
    | ofNat m =>
      have hm : m = 0 := Nat.eq_of_testBit_eq (fun k => by
        have := h k
        simpa [Int.testBit] using this)
      simp [hm]
    | negSucc m =>
      exfalso
      have h1 := h m
      have h2 : Nat.testBit m m = false := Nat.testBit_lt_two_pow (Nat.lt_two_pow m)
      simp [Int.testBit, h2] at h1

theorem land_lor_eq_zero_iff (x a b : Int) :
    Int.land x (Int.lor a b) = 0 ↔ Int.land x a = 0 ∧ Int.land x b = 0 := by
  simp only [int_eq_zero_iff_testBit, Int.testBit_land, Int.testBit_lor]
  constructor
  · intro h
    constructor <;> intro k <;> have := h k <;> revert this <;>
      cases Int.testBit x k <;> cases Int.testBit a k <;> cases Int.testBit b k <;> simp
  · rintro ⟨h1, h2⟩ k
    have e1 := h1 k
    have e2 := h2 k
    revert e1 e2
    cases Int.testBit x k <;> cases Int.testBit a k <;> cases Int.testBit b k <;> simp

/-! ## The returned offsets -/

/-- C1: for an `OB_MESH` object, every select mode and every initial offset,
`select_id_draw_object` returns `r_face_offset = initial_offset + F` (modulo
`2^32`) when the select mode has `SCE_SELECT_FACE` and `initial_offset`
otherwise, `r_edge_offset = r_face_offset + E` (modulo `2^32`) when it has
`SCE_SELECT_EDGE` and `r_face_offset` otherwise, `r_vert_offset =
r_edge_offset + V` (modulo `2^32`) when it has `SCE_SELECT_VERTEX` and
`r_edge_offset` otherwise, where `F`, `E`, `V` are the BMesh totals of an edit
mesh and the mesh counts otherwise.  Any other mesh object with the same three
counts, with or without an edit mesh, gets the same three offsets. -/
theorem select_id_draw_object_offsets (K : Env) (st : DrawState) (v3d : View3D) (ob : Object)
    (res_handle : Nat) (select_mode : Int) (initial_offset : Nat)
    (h_mesh : ob.type = K.OB_MESH) :
    (((select_id_draw_object K st v3d ob res_handle select_mode initial_offset).r_face_offset
        : Int) =
      if Int.land select_mode K.SCE_SELECT_FACE ≠ 0 then
        ((initial_offset : Int) + face_count ob.data) % 4294967296
      else (initial_offset : Int)) ∧
    (((select_id_draw_object K st v3d ob res_handle select_mode initial_offset).r_edge_offset
        : Int) =
      if Int.land select_mode K.SCE_SELECT_EDGE ≠ 0 then
        (((select_id_draw_object K st v3d ob res_handle select_mode
            initial_offset).r_face_offset : Int) + edge_count ob.data) % 4294967296
      else
        ((select_id_draw_object K st v3d ob res_handle select_mode
            initial_offset).r_face_offset : Int)) ∧
    (((select_id_draw_object K st v3d ob res_handle select_mode initial_offset).r_vert_offset
        : Int) =
      if Int.land select_mode K.SCE_SELECT_VERTEX ≠ 0 then
        (((select_id_draw_object K st v3d ob res_handle select_mode
            initial_offset).r_edge_offset : Int) + vert_count ob.data) % 4294967296
      else
        ((select_id_draw_object K st v3d ob res_handle select_mode
            initial_offset).r_edge_offset : Int)) ∧
    (∀ (st2 : DrawState) (v3d2 : View3D) (ob2 : Object) (res_handle2 : Nat),
      ob2.type = K.OB_MESH →
      face_count ob2.data = face_count ob.data →
      edge_count ob2.data = edge_count ob.data →
      vert_count ob2.data = vert_count ob.data →
      (select_id_draw_object K st2 v3d2 ob2 res_handle2 select_mode initial_offset).r_face_offset
          = (select_id_draw_object K st v3d ob res_handle select_mode initial_offset).r_face_offset ∧
      (select_id_draw_object K st2 v3d2 ob2 res_handle2 select_mode initial_offset).r_edge_offset
          = (select_id_draw_object K st v3d ob res_handle select_mode initial_offset).r_edge_offset ∧
      (select_id_draw_object K st2 v3d2 ob2 res_handle2 select_mode initial_offset).r_vert_offset
          = (select_id_draw_object K st v3d ob res_handle select_mode
              initial_offset).r_vert_offset) := by
  refine ⟨?_, ?_, ?_, ?_⟩
  · rw [face_offset_eq K st v3d ob res_handle select_mode initial_offset h_mesh]
    split_ifs
    · exact uint_add_uint_of_int_cast _ _
    · rfl
  · rw [edge_offset_eq K st v3d ob res_handle select_mode initial_offset h_mesh]
    split_ifs
    · exact uint_add_uint_of_int_cast _ _
    · rfl
  · rw [vert_offset_eq K st v3d ob res_handle select_mode initial_offset h_mesh]
    split_ifs
    · exact uint_add_uint_of_int_cast _ _
    · rfl
  · intro st2 v3d2 ob2 res_handle2 h_mesh2 hF hE hV
    have f2 := face_offset_eq K st2 v3d2 ob2 res_handle2 select_mode initial_offset h_mesh2
    have f1 := face_offset_eq K st v3d ob res_handle select_mode initial_offset h_mesh
    have e2 := edge_offset_eq K st2 v3d2 ob2 res_handle2 select_mode initial_offset h_mesh2
    have e1 := edge_offset_eq K st v3d ob res_handle select_mode initial_offset h_mesh
    have v2 := vert_offset_eq K st2 v3d2 ob2 res_handle2 select_mode initial_offset h_mesh2
    have v1 := vert_offset_eq K st v3d ob res_handle select_mode initial_offset h_mesh
    rw [hF] at f2
    have hf := f2.trans f1.symm
    rw [hE, hf] at e2
    have he := e2.trans e1.symm
    rw [hV, he] at v2
    exact ⟨hf, he, v2.trans v1.symm⟩

/-- Witness of C1 on a mesh of 6 faces, 12 edges and 8 vertices, all three
select-mode bits set and initial offset 100. -/
theorem select_id_draw_object_offsets_witness :
    sample_ob.type = sample_env.OB_MESH ∧
    (((select_id_draw_object sample_env sample_state sample_v3d sample_ob 0 7 100).r_face_offset
        : Int) =
      if Int.land 7 sample_env.SCE_SELECT_FACE ≠ 0 then
        (((100 : Nat) : Int) + face_count sample_ob.data) % 4294967296
      else ((100 : Nat) : Int)) :=
  ⟨by decide,
    (select_id_draw_object_offsets sample_env sample_state sample_v3d sample_ob 0 7 100
      (by decide)).1⟩

/-- C2: for an `OB_MESH` object with non-negative counts `F`, `E`, `V` and
`initial_offset + F + E + V < 2^32`, the returned offsets satisfy
`initial_offset ≤ r_face_offset ≤ r_edge_offset ≤ r_vert_offset`; an ID lies in
`[initial_offset, r_vert_offset)` exactly when it lies in the ID range of
exactly one element kind (so the three ranges are pairwise disjoint and cover
the interval without gaps); and the range of a kind whose select-mode bit is
clear is empty. -/
theorem select_id_draw_object_ranges (K : Env) (st : DrawState) (v3d : View3D) (ob : Object)
    (res_handle : Nat) (select_mode : Int) (initial_offset : Nat)
    (h_mesh : ob.type = K.OB_MESH)
    (hF : 0 ≤ face_count ob.data) (hE : 0 ≤ edge_count ob.data) (hV : 0 ≤ vert_count ob.data)
    (h_fit : (initial_offset : Int) + face_count ob.data + edge_count ob.data
      + vert_count ob.data < 4294967296) :
    initial_offset ≤
      (select_id_draw_object K st v3d ob res_handle select_mode initial_offset).r_face_offset ∧
    (select_id_draw_object K st v3d ob res_handle select_mode initial_offset).r_face_offset ≤
      (select_id_draw_object K st v3d ob res_handle select_mode initial_offset).r_edge_offset ∧
    (select_id_draw_object K st v3d ob res_handle select_mode initial_offset).r_edge_offset ≤
      (select_id_draw_object K st v3d ob res_handle select_mode initial_offset).r_vert_offset ∧
    (∀ id : Nat,
      (initial_offset ≤ id ∧
        id < (select_id_draw_object K st v3d ob res_handle select_mode
          initial_offset).r_vert_offset) ↔
      ∃! k : ElemKind,
        in_id_range initial_offset
          (select_id_draw_object K st v3d ob res_handle select_mode initial_offset) k id) ∧
    (Int.land select_mode K.SCE_SELECT_FACE = 0 →
      ∀ id : Nat, ¬ in_id_range initial_offset
        (select_id_draw_object K st v3d ob res_handle select_mode initial_offset)
        ElemKind.face id) ∧
    (Int.land select_mode K.SCE_SELECT_EDGE = 0 →
      ∀ id : Nat, ¬ in_id_range initial_offset
        (select_id_draw_object K st v3d ob res_handle select_mode initial_offset)
        ElemKind.edge id) ∧
    (Int.land select_mode K.SCE_SELECT_VERTEX = 0 →
      ∀ id : Nat, ¬ in_id_range initial_offset
        (select_id_draw_object K st v3d ob res_handle select_mode initial_offset)
        ElemKind.vert id) := by
  have f1 := face_offset_eq K st v3d ob res_handle select_mode initial_offset h_mesh
  have e1 := edge_offset_eq K st v3d ob res_handle select_mode initial_offset h_mesh
  have v1 := vert_offset_eq K st v3d ob res_handle select_mode initial_offset h_mesh
  generalize (select_id_draw_object K st v3d ob res_handle select_mode initial_offset) = r
    at f1 e1 v1 ⊢
  have hf_le : initial_offset ≤ r.r_face_offset ∧
      (r.r_face_offset : Int) ≤ initial_offset + face_count ob.data := by
    rw [f1]
    split_ifs
    · rw [uint_add_uint_of_int_eq _ _ hF (by omega)]
      omega
    · omega
  have he_le : r.r_face_offset ≤ r.r_edge_offset ∧
      (r.r_edge_offset : Int) ≤ r.r_face_offset + edge_count ob.data := by
    rw [e1]
    split_ifs
    · rw [uint_add_uint_of_int_eq _ _ hE (by omega)]
      omega
    · omega
  have hv_le : r.r_edge_offset ≤ r.r_vert_offset := by
    rw [v1]
    split_ifs
    · rw [uint_add_uint_of_int_eq _ _ hV (by omega)]
      omega
    · omega
  refine ⟨hf_le.1, he_le.1, hv_le, ?_, ?_, ?_, ?_⟩
  · intro id
    constructor
    · rintro ⟨h1, h2⟩
      by_cases c1 : id < r.r_face_offset
      · refine ⟨ElemKind.face, ⟨h1, c1⟩, ?_⟩
        intro k hk
        cases k <;> simp only [in_id_range] at hk <;> first | rfl | omega
      · by_cases c2 : id < r.r_edge_offset
        · refine ⟨ElemKind.edge, ⟨by omega, c2⟩, ?_⟩
          intro k hk
          cases k <;> simp only [in_id_range] at hk <;> first | rfl | omega
        · refine ⟨ElemKind.vert, ⟨by omega, h2⟩, ?_⟩
          intro k hk
          cases k <;> simp only [in_id_range] at hk <;> first | rfl | omega
    · rintro ⟨k, hk, -⟩
      cases k <;> simp only [in_id_range] at hk <;> omega
  · intro h id hk
    simp only [in_id_range] at hk
    rw [f1, if_neg (by simpa using h)] at hk
    omega
  · intro h id hk
    simp only [in_id_range] at hk
    rw [e1, if_neg (by simpa using h)] at hk
    omega
  · intro h id hk
    simp only [in_id_range] at hk
    rw [v1, if_neg (by simpa using h)] at hk
    omega

/-- Witness of C2 on a mesh of 6 faces, 12 edges and 8 vertices in edge
select mode with initial offset 100. -/
theorem select_id_draw_object_ranges_witness :
    sample_ob.type = sample_env.OB_MESH ∧
    0 ≤ face_count sample_ob.data ∧ 0 ≤ edge_count sample_ob.data ∧
    0 ≤ vert_count sample_ob.data ∧
    (((100 : Nat) : Int) + face_count sample_ob.data + edge_count sample_ob.data
      + vert_count sample_ob.data < 4294967296) ∧
    100 ≤ (select_id_draw_object sample_env sample_state sample_v3d sample_ob 0 2
      100).r_face_offset :=
  ⟨by decide, by decide, by decide, by decide, by decide,
    (select_id_draw_object_ranges sample_env sample_state sample_v3d sample_ob 0 2 100
      (by decide) (by decide) (by decide) (by decide) (by decide)).1⟩

/-! ## The select mode of an object -/

/-- C3: `select_id_get_object_select_mode` returns, when the object's mode has
any of `OB_MODE_WEIGHT_PAINT`, `OB_MODE_VERTEX_PAINT` or
`OB_MODE_TEXTURE_PAINT` set, `SCE_SELECT_VERTEX` if the original mesh's
`editflag` has `ME_EDIT_PAINT_VERT_SEL` and `SCE_SELECT_FACE` otherwise (the
scene is not consulted); when none of the three mode bits is set it returns
exactly `scene->toolsettings->selectmode`. -/
theorem select_id_get_object_select_mode_spec (K : Env) (scene : Scene) (ob : Object) :
    select_id_get_object_select_mode K scene ob =
      if Int.land ob.mode K.OB_MODE_WEIGHT_PAINT ≠ 0 ∨
          Int.land ob.mode K.OB_MODE_VERTEX_PAINT ≠ 0 ∨
          Int.land ob.mode K.OB_MODE_TEXTURE_PAINT ≠ 0 then
        (if Int.land ob.original_data.editflag K.ME_EDIT_PAINT_VERT_SEL ≠ 0 then
          K.SCE_SELECT_VERTEX
        else K.SCE_SELECT_FACE)
      else scene.toolsettings.selectmode := by
  have key : Int.land ob.mode
      (Int.lor (Int.lor K.OB_MODE_WEIGHT_PAINT K.OB_MODE_VERTEX_PAINT) K.OB_MODE_TEXTURE_PAINT)
        ≠ 0 ↔
      (Int.land ob.mode K.OB_MODE_WEIGHT_PAINT ≠ 0 ∨
        Int.land ob.mode K.OB_MODE_VERTEX_PAINT ≠ 0 ∨
        Int.land ob.mode K.OB_MODE_TEXTURE_PAINT ≠ 0) := by
    rw [Ne, land_lor_eq_zero_iff, land_lor_eq_zero_iff]
    tauto
  unfold select_id_get_object_select_mode
  by_cases h : Int.land ob.mode
      (Int.lor (Int.lor K.OB_MODE_WEIGHT_PAINT K.OB_MODE_VERTEX_PAINT) K.OB_MODE_TEXTURE_PAINT)
        ≠ 0
  · rw [if_pos h, if_pos (key.mp h)]
  · rw [if_neg h, if_neg (fun h2 => h (key.mpr h2))]

/-! ## Objects that are not meshes -/

/-- C4: for an object whose type is not `OB_MESH`, `select_id_draw_object`
records no command on any pass and leaves the targets of `r_vert_offset`,
`r_edge_offset` and `r_face_offset` as they were before the call. -/
theorem select_id_draw_object_non_mesh (K : Env) (st : DrawState) (v3d : View3D) (ob : Object)
    (res_handle : Nat) (select_mode : Int) (initial_offset : Nat)
    (h_type : ob.type ≠ K.OB_MESH) :
    (select_id_draw_object K st v3d ob res_handle select_mode initial_offset).inst = st.inst ∧
    (select_id_draw_object K st v3d ob res_handle select_mode initial_offset).r_vert_offset
      = st.r_vert_offset ∧
    (select_id_draw_object K st v3d ob res_handle select_mode initial_offset).r_edge_offset
      = st.r_edge_offset ∧
    (select_id_draw_object K st v3d ob res_handle select_mode initial_offset).r_face_offset
      = st.r_face_offset := by
  unfold select_id_draw_object
  rw [if_neg h_type]
  exact ⟨rfl, rfl, rfl, rfl⟩

/-- Witness of C4 on a legacy curve object: the offsets keep the values 7, 8
and 9 they had, not the initial offset 100. -/
theorem select_id_draw_object_non_mesh_witness :
    sample_curve_ob.type ≠ sample_env.OB_MESH ∧
    (select_id_draw_object sample_env sample_state sample_v3d sample_curve_ob 0 7 100).inst
      = sample_state.inst ∧
    (select_id_draw_object sample_env sample_state sample_v3d sample_curve_ob 0 7
      100).r_vert_offset = 7 :=
  ⟨by decide,
    (select_id_draw_object_non_mesh sample_env sample_state sample_v3d sample_curve_ob 0 7 100
      (by decide)).1,
    (select_id_draw_object_non_mesh sample_env sample_state sample_v3d sample_curve_ob 0 7 100
      (by decide)).2.1⟩

/-! ## The commands recorded on the passes -/

/-- C5: for an `OB_MESH` object, with or without an edit mesh,
`select_id_draw_object` appends to `select_edge` a push of "offset" followed by
the edge draw when the select mode has `SCE_SELECT_EDGE` and nothing otherwise,
the pushed constant being the returned `r_face_offset` (converted to `int`, as
the call does); it appends to `select_vert` a push of "offset" followed by the
vertex draw when the select mode has `SCE_SELECT_VERTEX` and nothing
otherwise, the pushed constant being the returned `r_edge_offset`; and it
appends to `select_face_flat` a push of "offset" with `initial_offset`
followed by the face draw (and the face-dot draw, if any) when the select mode
has `SCE_SELECT_FACE` and nothing otherwise. -/
theorem select_id_draw_object_passes (K : Env) (st : DrawState) (v3d : View3D) (ob : Object)
    (res_handle : Nat) (select_mode : Int) (initial_offset : Nat)
    (h_mesh : ob.type = K.OB_MESH) :
    (select_id_draw_object K st v3d ob res_handle select_mode initial_offset).inst.select_edge =
      st.inst.select_edge ++
        (if Int.land select_mode K.SCE_SELECT_EDGE ≠ 0 then
          [Command.push_constant "offset"
              (int_of_uint (select_id_draw_object K st v3d ob res_handle select_mode initial_offset).r_face_offset),
            Command.draw Batch.edges_with_select_id res_handle]
        else []) ∧
    (select_id_draw_object K st v3d ob res_handle select_mode initial_offset).inst.select_vert =
      st.inst.select_vert ++
        (if Int.land select_mode K.SCE_SELECT_VERTEX ≠ 0 then
          [Command.push_constant "offset"
              (int_of_uint (select_id_draw_object K st v3d ob res_handle select_mode initial_offset).r_edge_offset),
            Command.draw Batch.verts_with_select_id res_handle]
        else []) ∧
    (select_id_draw_object K st v3d ob res_handle select_mode initial_offset).inst.select_face_flat =
      st.inst.select_face_flat ++
        (if Int.land select_mode K.SCE_SELECT_FACE ≠ 0 then
          [Command.push_constant "offset" (int_of_uint initial_offset),
            Command.draw Batch.triangles_with_select_id res_handle] ++
          (if ob.data.edit_mesh.isSome = true ∧
              check_ob_drawface_dot K select_mode v3d ob.dt = true then
            [Command.draw Batch.facedots_with_select_id res_handle]
          else [])
        else []) :=
  ⟨select_edge_eq K st v3d ob res_handle select_mode initial_offset h_mesh,
    select_vert_eq K st v3d ob res_handle select_mode initial_offset h_mesh,
    select_face_flat_eq K st v3d ob res_handle select_mode initial_offset h_mesh⟩

/-- Witness of C5 on an edit-mode mesh object in edge select mode with initial
offset 100: the edge pass gets the push of 100 and the edge draw. -/
theorem select_id_draw_object_passes_witness :
    sample_edit_ob.type = sample_env.OB_MESH ∧
    (select_id_draw_object sample_env sample_state sample_v3d sample_edit_ob 0 2
        100).inst.select_edge =
      sample_state.inst.select_edge ++
        (if Int.land 2 sample_env.SCE_SELECT_EDGE ≠ 0 then
          [Command.push_constant "offset"
              (int_of_uint (select_id_draw_object sample_env sample_state sample_v3d
                sample_edit_ob 0 2 100).r_face_offset),
            Command.draw Batch.edges_with_select_id 0]
        else []) :=
  ⟨by decide,
    (select_id_draw_object_passes sample_env sample_state sample_v3d sample_edit_ob 0 2 100
      (by decide)).1⟩

theorem drawn_batches_append (a b : List Command) :
    drawn_batches (a ++ b) = drawn_batches a ++ drawn_batches b := by
  simp [drawn_batches, List.filterMap_append]

theorem draw_select_id_mesh_count_triangles (K : Env) (st : DrawState) (ob : Object)
    (res_handle : Nat) (select_mode : Int) (initial_offset : Nat) :
    count_draws (draw_select_id_mesh K st ob res_handle select_mode initial_offset).inst
        Batch.triangles_with_select_id =
      count_draws st.inst Batch.triangles_with_select_id + 1 := by
  rw [draw_select_id_mesh_eq]
  by_cases hF : Int.land select_mode K.SCE_SELECT_FACE = 0 <;>
  by_cases hE : Int.land select_mode K.SCE_SELECT_EDGE = 0 <;>
  by_cases hV : Int.land select_mode K.SCE_SELECT_VERTEX = 0 <;>
  simp [hF, hE, hV, count_draws, drawn_batches_append, List.count_append] <;>
  simp [drawn_batches] <;> omega

/-- C6: for a mesh without edit mesh and every select mode,
`draw_select_id_mesh` draws the face triangle batch exactly once: with
`SCE_SELECT_FACE` into `select_face_flat`, after the push of "offset"; without
it into `select_face_uniform`, and then nothing is pushed for faces,
`select_face_flat` receives nothing and `r_face_offset = initial_offset`. -/
theorem draw_select_id_mesh_faces (K : Env) (st : DrawState) (ob : Object)
    (res_handle : Nat) (select_mode : Int) (initial_offset : Nat) :
    count_draws (draw_select_id_mesh K st ob res_handle select_mode initial_offset).inst
        Batch.triangles_with_select_id =
      count_draws st.inst Batch.triangles_with_select_id + 1 ∧
    (draw_select_id_mesh K st ob res_handle select_mode initial_offset).inst.select_face_flat =
      st.inst.select_face_flat ++
        (if Int.land select_mode K.SCE_SELECT_FACE ≠ 0 then
          [Command.push_constant "offset" (int_of_uint initial_offset),
            Command.draw Batch.triangles_with_select_id res_handle]
        else []) ∧
    (draw_select_id_mesh K st ob res_handle select_mode initial_offset).inst.select_face_uniform =
      st.inst.select_face_uniform ++
        (if Int.land select_mode K.SCE_SELECT_FACE ≠ 0 then []
        else [Command.draw Batch.triangles_with_select_id res_handle]) ∧
    (draw_select_id_mesh K st ob res_handle select_mode initial_offset).r_face_offset =
      (if Int.land select_mode K.SCE_SELECT_FACE ≠ 0 then
        uint_add initial_offset (uint_of_int ob.data.faces_num)
      else initial_offset) := by
  refine ⟨draw_select_id_mesh_count_triangles K st ob res_handle select_mode initial_offset,
    ?_, ?_, ?_⟩ <;>
  rw [draw_select_id_mesh_eq]

/-- C7: for an edit mesh and a select mode without `SCE_SELECT_FACE`,
`draw_select_id_edit_mesh` draws face geometry into `select_face_uniform`
exactly when `ob->dt >= OB_SOLID`, appends nothing to `select_face_flat` and
returns `r_face_offset = initial_offset`; with `ob->dt < OB_SOLID` and no
select-mode bit set it records no command at all, whereas `draw_select_id_mesh`
on the same input records one draw of the face triangles. -/
theorem draw_select_id_edit_mesh_no_face_mode (K : Env) (st : DrawState) (ob : Object)
    (bm : BMesh) (res_handle : Nat) (select_mode : Int) (draw_facedot : Bool)
    (initial_offset : Nat)
    (h_face : Int.land select_mode K.SCE_SELECT_FACE = 0) :
    (draw_select_id_edit_mesh K st ob bm res_handle select_mode draw_facedot
        initial_offset).inst.select_face_uniform =
      st.inst.select_face_uniform ++
        (if ob.dt ≥ K.OB_SOLID then
          [Command.draw
            (if K.USE_CAGE_OCCLUSION = true then Batch.triangles_with_select_id
              else Batch.surface) res_handle]
        else []) ∧
    (draw_select_id_edit_mesh K st ob bm res_handle select_mode draw_facedot
        initial_offset).inst.select_face_flat = st.inst.select_face_flat ∧
    (draw_select_id_edit_mesh K st ob bm res_handle select_mode draw_facedot
        initial_offset).r_face_offset = initial_offset ∧
    (ob.dt < K.OB_SOLID →
      Int.land select_mode K.SCE_SELECT_EDGE = 0 →
      Int.land select_mode K.SCE_SELECT_VERTEX = 0 →
      (draw_select_id_edit_mesh K st ob bm res_handle select_mode draw_facedot
          initial_offset).inst = st.inst) ∧
    count_draws (draw_select_id_mesh K st ob res_handle select_mode initial_offset).inst
        Batch.triangles_with_select_id =
      count_draws st.inst Batch.triangles_with_select_id + 1 ∧
    (draw_select_id_mesh K st ob res_handle select_mode initial_offset).inst.select_face_uniform =
      st.inst.select_face_uniform ++ [Command.draw Batch.triangles_with_select_id res_handle] := by
  refine ⟨?_, ?_, ?_, ?_,
    draw_select_id_mesh_count_triangles K st ob res_handle select_mode initial_offset, ?_⟩
  · rw [draw_select_id_edit_mesh_eq]
    simp [h_face]
  · rw [draw_select_id_edit_mesh_eq]
    simp [h_face]
  · rw [draw_select_id_edit_mesh_eq]
    simp [h_face]
  · intro h_dt h_edge h_vert
    rw [draw_select_id_edit_mesh_eq]
    simp [h_face, h_edge, h_vert, not_le.mpr h_dt]
  · rw [draw_select_id_mesh_eq]
    simp [h_face]

/-- Witness of C7 on a wire-drawn edit-mode mesh object with no select-mode
bit set: no command is recorded. -/
theorem draw_select_id_edit_mesh_no_face_mode_witness :
    Int.land 0 sample_env.SCE_SELECT_FACE = 0 ∧
    sample_wire_edit_ob.dt < sample_env.OB_SOLID ∧
    (draw_select_id_edit_mesh sample_env sample_state sample_wire_edit_ob ⟨6, 9, 5⟩ 0 0 false
        100).inst = sample_state.inst :=
  ⟨by decide, by decide,
    (draw_select_id_edit_mesh_no_face_mode sample_env sample_state sample_wire_edit_ob
      ⟨6, 9, 5⟩ 0 0 false 100 (by decide)).2.2.2.1 (by decide) (by decide) (by decide)⟩

/-! ## Face dots -/

theorem check_ob_drawface_dot_iff (K : Env) (select_mode : Int) (v3d : View3D) (dt : Int) :
    check_ob_drawface_dot K select_mode v3d dt = true ↔
      (Int.land select_mode K.SCE_SELECT_FACE ≠ 0 ∧
        (dt < K.OB_SOLID ∨ K.XRAY_FLAG_ENABLED v3d = true ∨
          Int.land v3d.overlay_edit_flag K.V3D_OVERLAY_EDIT_FACE_DOT ≠ 0)) := by
  unfold check_ob_drawface_dot
  by_cases hF : Int.land select_mode K.SCE_SELECT_FACE = 0 <;>
  by_cases hD : dt < K.OB_SOLID <;>
  by_cases hX : K.XRAY_FLAG_ENABLED v3d = true <;>
  by_cases hO : Int.land v3d.overlay_edit_flag K.V3D_OVERLAY_EDIT_FACE_DOT = 0 <;>
  simp [hF, hD, hX, hO]

/-- C8: `check_ob_drawface_dot(select_mode, v3d, dt)` is true exactly when the
select mode has `SCE_SELECT_FACE` and (`dt < OB_SOLID`, or X-ray is enabled
for `v3d`, or the overlay edit flag has `V3D_OVERLAY_EDIT_FACE_DOT`).  In
`select_id_draw_object` on a mesh object the face-dot batch is drawn exactly
when the mesh has an edit mesh and that condition holds for `ob->dt`: it is
then the last command appended to `select_face_flat`, after the push of
"offset" with `initial_offset` and the draw of the face triangles, and no pass
receives a face-dot draw otherwise, in particular never for a mesh without
edit mesh. -/
theorem select_id_draw_object_facedots (K : Env) (st : DrawState) (v3d : View3D) (ob : Object)
    (res_handle : Nat) (select_mode : Int) (initial_offset : Nat) (dt : Int)
    (h_mesh : ob.type = K.OB_MESH) :
    (check_ob_drawface_dot K select_mode v3d dt = true ↔
      (Int.land select_mode K.SCE_SELECT_FACE ≠ 0 ∧
        (dt < K.OB_SOLID ∨ K.XRAY_FLAG_ENABLED v3d = true ∨
          Int.land v3d.overlay_edit_flag K.V3D_OVERLAY_EDIT_FACE_DOT ≠ 0))) ∧
    (select_id_draw_object K st v3d ob res_handle select_mode initial_offset).inst.select_face_flat =
      st.inst.select_face_flat ++
        (if ob.data.edit_mesh.isSome = true ∧
            (Int.land select_mode K.SCE_SELECT_FACE ≠ 0 ∧
              (ob.dt < K.OB_SOLID ∨ K.XRAY_FLAG_ENABLED v3d = true ∨
                Int.land v3d.overlay_edit_flag K.V3D_OVERLAY_EDIT_FACE_DOT ≠ 0)) then
          [Command.push_constant "offset" (int_of_uint initial_offset),
            Command.draw Batch.triangles_with_select_id res_handle,
            Command.draw Batch.facedots_with_select_id res_handle]
        else if Int.land select_mode K.SCE_SELECT_FACE ≠ 0 then
          [Command.push_constant "offset" (int_of_uint initial_offset),
            Command.draw Batch.triangles_with_select_id res_handle]
        else []) ∧
    count_draws (select_id_draw_object K st v3d ob res_handle select_mode initial_offset).inst
        Batch.facedots_with_select_id =
      count_draws st.inst Batch.facedots_with_select_id +
        (if ob.data.edit_mesh.isSome = true ∧
            (Int.land select_mode K.SCE_SELECT_FACE ≠ 0 ∧
              (ob.dt < K.OB_SOLID ∨ K.XRAY_FLAG_ENABLED v3d = true ∨
                Int.land v3d.overlay_edit_flag K.V3D_OVERLAY_EDIT_FACE_DOT ≠ 0)) then 1
        else 0) := by
  have hdot := check_ob_drawface_dot_iff K select_mode v3d ob.dt
  refine ⟨check_ob_drawface_dot_iff K select_mode v3d dt, ?_, ?_⟩
  · rw [select_face_flat_eq K st v3d ob res_handle select_mode initial_offset h_mesh]
    simp only [hdot]
    by_cases hF : Int.land select_mode K.SCE_SELECT_FACE = 0
    · simp [hF]
    · by_cases hc : ob.data.edit_mesh.isSome = true ∧
          (Int.land select_mode K.SCE_SELECT_FACE ≠ 0 ∧
            (ob.dt < K.OB_SOLID ∨ K.XRAY_FLAG_ENABLED v3d = true ∨
              Int.land v3d.overlay_edit_flag K.V3D_OVERLAY_EDIT_FACE_DOT ≠ 0))
      · simp only [if_pos hc, if_pos hF]
        rfl
      · simp only [if_neg hc, if_pos hF, List.append_nil]
  · unfold count_draws
    rw [select_face_flat_eq K st v3d ob res_handle select_mode initial_offset h_mesh,
      select_face_uniform_eq K st v3d ob res_handle select_mode initial_offset h_mesh,
      select_edge_eq K st v3d ob res_handle select_mode initial_offset h_mesh,
      select_vert_eq K st v3d ob res_handle select_mode initial_offset h_mesh]
    simp only [hdot, drawn_batches_append, List.count_append]
    by_cases hc : ob.data.edit_mesh.isSome = true ∧
        (Int.land select_mode K.SCE_SELECT_FACE ≠ 0 ∧
          (ob.dt < K.OB_SOLID ∨ K.XRAY_FLAG_ENABLED v3d = true ∨
            Int.land v3d.overlay_edit_flag K.V3D_OVERLAY_EDIT_FACE_DOT ≠ 0))
    · simp only [if_pos hc, if_pos hc.2.1]
      split_ifs <;> simp [drawn_batches] <;> omega
    · simp only [if_neg hc]
      split_ifs <;> simp [drawn_batches]

/-- Witness of C8 on a wire-drawn edit-mode mesh object in face select mode:
the face dots are drawn after the face triangles under the single pushed
offset 100. -/
theorem select_id_draw_object_facedots_witness :
    sample_wire_edit_ob.type = sample_env.OB_MESH ∧
    (select_id_draw_object sample_env sample_state sample_v3d sample_wire_edit_ob 0 4
        100).inst.select_face_flat =
      [Command.push_constant "offset" 100,
        Command.draw Batch.triangles_with_select_id 0,
        Command.draw Batch.facedots_with_select_id 0] :=
  ⟨by decide,
    ((select_id_draw_object_facedots sample_env sample_state sample_v3d sample_wire_edit_ob
      0 4 100 2 (by decide)).2.1).trans (by decide)⟩

/-! ## The pushed "offset" constants -/

theorem offset_constants_face_flat (K : Env) (st : DrawState) (v3d : View3D) (ob : Object)
    (res_handle : Nat) (select_mode : Int) (initial_offset : Nat) (h_mesh : ob.type = K.OB_MESH) :
    offset_constants (issued st.inst.select_face_flat
        (select_id_draw_object K st v3d ob res_handle select_mode initial_offset).inst.select_face_flat) =
      if Int.land select_mode K.SCE_SELECT_FACE ≠ 0 then [int_of_uint initial_offset]
      else [] := by
  rw [select_face_flat_eq K st v3d ob res_handle select_mode initial_offset h_mesh, issued_append]
  split_ifs <;> simp [offset_constants]

theorem offset_constants_face_uniform (K : Env) (st : DrawState) (v3d : View3D) (ob : Object)
    (res_handle : Nat) (select_mode : Int) (initial_offset : Nat) (h_mesh : ob.type = K.OB_MESH) :
    offset_constants (issued st.inst.select_face_uniform
        (select_id_draw_object K st v3d ob res_handle select_mode initial_offset).inst.select_face_uniform) = [] := by
  rw [select_face_uniform_eq K st v3d ob res_handle select_mode initial_offset h_mesh,
    issued_append]
  split_ifs <;> simp [offset_constants]

theorem offset_constants_edge (K : Env) (st : DrawState) (v3d : View3D) (ob : Object)
    (res_handle : Nat) (select_mode : Int) (initial_offset : Nat) (h_mesh : ob.type = K.OB_MESH) :
    offset_constants (issued st.inst.select_edge
        (select_id_draw_object K st v3d ob res_handle select_mode initial_offset).inst.select_edge) =
      if Int.land select_mode K.SCE_SELECT_EDGE ≠ 0 then
        [int_of_uint (select_id_draw_object K st v3d ob res_handle select_mode initial_offset).r_face_offset]
      else [] := by
  rw [select_edge_eq K st v3d ob res_handle select_mode initial_offset h_mesh, issued_append]
  split_ifs <;> simp [offset_constants]

theorem offset_constants_vert (K : Env) (st : DrawState) (v3d : View3D) (ob : Object)
    (res_handle : Nat) (select_mode : Int) (initial_offset : Nat) (h_mesh : ob.type = K.OB_MESH) :
    offset_constants (issued st.inst.select_vert
        (select_id_draw_object K st v3d ob res_handle select_mode initial_offset).inst.select_vert) =
      if Int.land select_mode K.SCE_SELECT_VERTEX ≠ 0 then
        [int_of_uint (select_id_draw_object K st v3d ob res_handle select_mode initial_offset).r_edge_offset]
      else [] := by
  rw [select_vert_eq K st v3d ob res_handle select_mode initial_offset h_mesh, issued_append]
  split_ifs <;> simp [offset_constants]

/-- C10: the offsets `select_id_draw_object` returns for a mesh object, and the
"offset" constants it pushes on each pass, are the same for any two calls with
the same select mode, initial offset and element counts, whatever the passes
held before, the view, the object's draw type and the resource handle are (and
whether or not an edit mesh is present).  In `draw_select_id_edit_mesh` the
value of `draw_facedot` does not change the returned offsets. -/
theorem select_id_draw_object_offsets_depend_on_counts (K : Env) (st1 st2 : DrawState)
    (v3d1 v3d2 : View3D) (ob1 ob2 : Object) (res_handle1 res_handle2 : Nat)
    (select_mode : Int) (initial_offset : Nat)
    (h_mesh1 : ob1.type = K.OB_MESH) (h_mesh2 : ob2.type = K.OB_MESH)
    (hF : face_count ob1.data = face_count ob2.data)
    (hE : edge_count ob1.data = edge_count ob2.data)
    (hV : vert_count ob1.data = vert_count ob2.data) :
    (select_id_draw_object K st1 v3d1 ob1 res_handle1 select_mode initial_offset).r_face_offset =
      (select_id_draw_object K st2 v3d2 ob2 res_handle2 select_mode initial_offset).r_face_offset ∧
    (select_id_draw_object K st1 v3d1 ob1 res_handle1 select_mode initial_offset).r_edge_offset =
      (select_id_draw_object K st2 v3d2 ob2 res_handle2 select_mode initial_offset).r_edge_offset ∧
    (select_id_draw_object K st1 v3d1 ob1 res_handle1 select_mode initial_offset).r_vert_offset =
      (select_id_draw_object K st2 v3d2 ob2 res_handle2 select_mode initial_offset).r_vert_offset ∧
    offset_constants (issued st1.inst.select_face_flat
        (select_id_draw_object K st1 v3d1 ob1 res_handle1 select_mode initial_offset).inst.select_face_flat) =
      offset_constants (issued st2.inst.select_face_flat
        (select_id_draw_object K st2 v3d2 ob2 res_handle2 select_mode initial_offset).inst.select_face_flat) ∧
    offset_constants (issued st1.inst.select_face_uniform
        (select_id_draw_object K st1 v3d1 ob1 res_handle1 select_mode initial_offset).inst.select_face_uniform) =
      offset_constants (issued st2.inst.select_face_uniform
        (select_id_draw_object K st2 v3d2 ob2 res_handle2 select_mode initial_offset).inst.select_face_uniform) ∧
    offset_constants (issued st1.inst.select_edge
        (select_id_draw_object K st1 v3d1 ob1 res_handle1 select_mode initial_offset).inst.select_edge) =
      offset_constants (issued st2.inst.select_edge
        (select_id_draw_object K st2 v3d2 ob2 res_handle2 select_mode initial_offset).inst.select_edge) ∧
    offset_constants (issued st1.inst.select_vert
        (select_id_draw_object K st1 v3d1 ob1 res_handle1 select_mode initial_offset).inst.select_vert) =
      offset_constants (issued st2.inst.select_vert
        (select_id_draw_object K st2 v3d2 ob2 res_handle2 select_mode initial_offset).inst.select_vert) ∧
    (∀ (bm : BMesh) (draw_facedot : Bool),
      (draw_select_id_edit_mesh K st1 ob1 bm res_handle1 select_mode draw_facedot
          initial_offset).r_face_offset =
        (draw_select_id_edit_mesh K st1 ob1 bm res_handle1 select_mode (!draw_facedot)
          initial_offset).r_face_offset ∧
      (draw_select_id_edit_mesh K st1 ob1 bm res_handle1 select_mode draw_facedot
          initial_offset).r_edge_offset =
        (draw_select_id_edit_mesh K st1 ob1 bm res_handle1 select_mode (!draw_facedot)
          initial_offset).r_edge_offset ∧
      (draw_select_id_edit_mesh K st1 ob1 bm res_handle1 select_mode draw_facedot
          initial_offset).r_vert_offset =
        (draw_select_id_edit_mesh K st1 ob1 bm res_handle1 select_mode (!draw_facedot)
          initial_offset).r_vert_offset) := by
  have f1 := face_offset_eq K st1 v3d1 ob1 res_handle1 select_mode initial_offset h_mesh1
  have f2 := face_offset_eq K st2 v3d2 ob2 res_handle2 select_mode initial_offset h_mesh2
  have e1 := edge_offset_eq K st1 v3d1 ob1 res_handle1 select_mode initial_offset h_mesh1
  have e2 := edge_offset_eq K st2 v3d2 ob2 res_handle2 select_mode initial_offset h_mesh2
  have w1 := vert_offset_eq K st1 v3d1 ob1 res_handle1 select_mode initial_offset h_mesh1
  have w2 := vert_offset_eq K st2 v3d2 ob2 res_handle2 select_mode initial_offset h_mesh2
  rw [hF] at f1
  have hf := f1.trans f2.symm
  rw [hE, hf] at e1
  have he := e1.trans e2.symm
  rw [hV, he] at w1
  have hv := w1.trans w2.symm
  refine ⟨hf, he, hv, ?_, ?_, ?_, ?_, ?_⟩
  · rw [offset_constants_face_flat K st1 v3d1 ob1 res_handle1 select_mode initial_offset h_mesh1,
      offset_constants_face_flat K st2 v3d2 ob2 res_handle2 select_mode initial_offset h_mesh2]
  · rw [offset_constants_face_uniform K st1 v3d1 ob1 res_handle1 select_mode initial_offset
        h_mesh1,
      offset_constants_face_uniform K st2 v3d2 ob2 res_handle2 select_mode initial_offset
        h_mesh2]
  · rw [offset_constants_edge K st1 v3d1 ob1 res_handle1 select_mode initial_offset h_mesh1,
      offset_constants_edge K st2 v3d2 ob2 res_handle2 select_mode initial_offset h_mesh2, hf]
  · rw [offset_constants_vert K st1 v3d1 ob1 res_handle1 select_mode initial_offset h_mesh1,
      offset_constants_vert K st2 v3d2 ob2 res_handle2 select_mode initial_offset h_mesh2, he]
  · intro bm draw_facedot
    rw [draw_select_id_edit_mesh_eq, draw_select_id_edit_mesh_eq]
    exact ⟨rfl, rfl, rfl⟩

/-- Witness of C10: a solid-drawn and a wire-drawn edit-mode object with the
same edit mesh, different pass contents and different resource handles get the
same vertex offset. -/
theorem select_id_draw_object_offsets_depend_on_counts_witness :
    sample_edit_ob.type = sample_env.OB_MESH ∧
    sample_wire_edit_ob.type = sample_env.OB_MESH ∧
    face_count sample_edit_ob.data = face_count sample_wire_edit_ob.data ∧
    edge_count sample_edit_ob.data = edge_count sample_wire_edit_ob.data ∧
    vert_count sample_edit_ob.data = vert_count sample_wire_edit_ob.data ∧
    (select_id_draw_object sample_env sample_state sample_v3d sample_edit_ob 0 7
        100).r_vert_offset =
      (select_id_draw_object sample_env
        (select_id_draw_object sample_env sample_state sample_v3d sample_ob 3 7 50)
        ⟨2, 256, 128⟩ sample_wire_edit_ob 5 7 100).r_vert_offset :=
  ⟨by decide, by decide, by decide, by decide, by decide,
    (select_id_draw_object_offsets_depend_on_counts sample_env sample_state
      (select_id_draw_object sample_env sample_state sample_v3d sample_ob 3 7 50)
      sample_v3d ⟨2, 256, 128⟩ sample_edit_ob sample_wire_edit_ob 0 5 7 100
      (by decide) (by decide) (by decide) (by decide) (by decide)).2.2.1⟩

/-! ## Offsets are never zero -/

theorem offsets_monotone (K : Env) (st : DrawState) (v3d : View3D) (ob : Object)
    (res_handle : Nat) (select_mode : Int) (initial_offset : Nat)
    (h_mesh : ob.type = K.OB_MESH)
    (hF : 0 ≤ face_count ob.data) (hE : 0 ≤ edge_count ob.data) (hV : 0 ≤ vert_count ob.data)
    (h_fit : (initial_offset : Int) + face_count ob.data + edge_count ob.data
      + vert_count ob.data < 4294967296) :
    initial_offset ≤ (select_id_draw_object K st v3d ob res_handle select_mode initial_offset).r_face_offset ∧
    (select_id_draw_object K st v3d ob res_handle select_mode initial_offset).r_face_offset ≤
      (select_id_draw_object K st v3d ob res_handle select_mode initial_offset).r_edge_offset ∧
    (select_id_draw_object K st v3d ob res_handle select_mode initial_offset).r_edge_offset ≤
      (select_id_draw_object K st v3d ob res_handle select_mode initial_offset).r_vert_offset ∧
    ((select_id_draw_object K st v3d ob res_handle select_mode initial_offset).r_vert_offset : Int) ≤
      (initial_offset : Int) + face_count ob.data + edge_count ob.data + vert_count ob.data := by
  have f1 := face_offset_eq K st v3d ob res_handle select_mode initial_offset h_mesh
  have e1 := edge_offset_eq K st v3d ob res_handle select_mode initial_offset h_mesh
  have v1 := vert_offset_eq K st v3d ob res_handle select_mode initial_offset h_mesh
  generalize (select_id_draw_object K st v3d ob res_handle select_mode initial_offset) = r
    at f1 e1 v1 ⊢
  have hf_le : initial_offset ≤ r.r_face_offset ∧
      (r.r_face_offset : Int) ≤ initial_offset + face_count ob.data := by
    rw [f1]
    split_ifs
    · rw [uint_add_uint_of_int_eq _ _ hF (by omega)]
      omega
    · omega
  have he_le : r.r_face_offset ≤ r.r_edge_offset ∧
      (r.r_edge_offset : Int) ≤ r.r_face_offset + edge_count ob.data := by
    rw [e1]
    split_ifs
    · rw [uint_add_uint_of_int_eq _ _ hE (by omega)]
      omega
    · omega
  have hv_le : r.r_edge_offset ≤ r.r_vert_offset ∧
      (r.r_vert_offset : Int) ≤ r.r_edge_offset + vert_count ob.data := by
    rw [v1]
    split_ifs
    · rw [uint_add_uint_of_int_eq _ _ hV (by omega)]
      omega
    · omega
  omega

/-- C9, as the claim states it, fails: with `initial_offset = 2^31` (positive),
a mesh of 6 faces, 12 edges and 8 vertices (no wrap-around: `2^31 + 26 <
2^32`) and vertex select mode, the constant pushed on `select_vert` is
`int(2^31) = -2147483648`, which is neither `>= initial_offset` nor `> 0`. -/
theorem pushed_offset_negative :
    sample_ob.type = sample_env.OB_MESH ∧
    select_id_draw_object_assert 2147483648 = true ∧
    0 ≤ face_count sample_ob.data ∧ 0 ≤ edge_count sample_ob.data ∧
    0 ≤ vert_count sample_ob.data ∧
    (((2147483648 : Nat) : Int) + face_count sample_ob.data + edge_count sample_ob.data
      + vert_count sample_ob.data < 4294967296) ∧
    offset_constants (issued sample_state.inst.select_vert
        (select_id_draw_object sample_env sample_state sample_v3d sample_ob 0 1
          2147483648).inst.select_vert) = [-2147483648] ∧
    ¬ (∀ c ∈ issued_offset_constants sample_state.inst
        (select_id_draw_object sample_env sample_state sample_v3d sample_ob 0 1
          2147483648).inst,
      ((2147483648 : Nat) : Int) ≤ c ∧ 0 < c) := by
  decide

/-- C9, amended: for an `OB_MESH` object with `initial_offset > 0`, non-negative
counts and `initial_offset + F + E + V < 2^32`, each of the three returned
offsets is `>= initial_offset` and hence `> 0`; every "offset" constant pushed
is `int(off)` for an offset `off` with `initial_offset <= off <=
r_vert_offset`, so it is never 0, and it is `>= initial_offset` and `> 0`
whenever `off < 2^31`; in vertex-only mode the constant pushed on `select_vert`
is `int(initial_offset)`.  A second call on a mesh object with initial offset
equal to the returned `r_vert_offset` satisfies the assertion
`initial_offset > 0` again and, if its own sum does not wrap either, none of
its ID ranges shares an ID with a range of the first call. -/
theorem select_id_draw_object_offsets_positive (K : Env) (st : DrawState) (v3d : View3D)
    (ob : Object) (res_handle : Nat) (select_mode : Int) (initial_offset : Nat)
    (h_mesh : ob.type = K.OB_MESH)
    (h_pos : select_id_draw_object_assert initial_offset = true)
    (hF : 0 ≤ face_count ob.data) (hE : 0 ≤ edge_count ob.data) (hV : 0 ≤ vert_count ob.data)
    (h_fit : (initial_offset : Int) + face_count ob.data + edge_count ob.data
      + vert_count ob.data < 4294967296) :
    (initial_offset ≤ (select_id_draw_object K st v3d ob res_handle select_mode initial_offset).r_face_offset ∧
      0 < (select_id_draw_object K st v3d ob res_handle select_mode initial_offset).r_face_offset) ∧
    (initial_offset ≤ (select_id_draw_object K st v3d ob res_handle select_mode initial_offset).r_edge_offset ∧
      0 < (select_id_draw_object K st v3d ob res_handle select_mode initial_offset).r_edge_offset) ∧
    (initial_offset ≤ (select_id_draw_object K st v3d ob res_handle select_mode initial_offset).r_vert_offset ∧
      0 < (select_id_draw_object K st v3d ob res_handle select_mode initial_offset).r_vert_offset) ∧
    (∀ c ∈ issued_offset_constants st.inst
        (select_id_draw_object K st v3d ob res_handle select_mode initial_offset).inst,
      c ≠ 0 ∧
      ∃ off : Nat, c = int_of_uint off ∧ initial_offset ≤ off ∧
        off ≤ (select_id_draw_object K st v3d ob res_handle select_mode initial_offset).r_vert_offset ∧
        (off < 2147483648 → (initial_offset : Int) ≤ c ∧ 0 < c)) ∧
    (Int.land select_mode K.SCE_SELECT_FACE = 0 →
      Int.land select_mode K.SCE_SELECT_EDGE = 0 →
      Int.land select_mode K.SCE_SELECT_VERTEX ≠ 0 →
      offset_constants (issued st.inst.select_vert
        (select_id_draw_object K st v3d ob res_handle select_mode initial_offset).inst.select_vert) =
          [int_of_uint initial_offset]) ∧
    (∀ (v3d2 : View3D) (ob2 : Object) (res_handle2 : Nat) (select_mode2 : Int),
      ob2.type = K.OB_MESH →
      0 ≤ face_count ob2.data → 0 ≤ edge_count ob2.data → 0 ≤ vert_count ob2.data →
      (((select_id_draw_object K st v3d ob res_handle select_mode initial_offset).r_vert_offset : Int)
        + face_count ob2.data + edge_count ob2.data + vert_count ob2.data < 4294967296) →
      select_id_draw_object_assert
        (select_id_draw_object K st v3d ob res_handle select_mode initial_offset).r_vert_offset = true ∧
      ∀ (id : Nat) (k1 k2 : ElemKind),
        in_id_range initial_offset
          (select_id_draw_object K st v3d ob res_handle select_mode initial_offset) k1 id →
        ¬ in_id_range (select_id_draw_object K st v3d ob res_handle select_mode initial_offset).r_vert_offset
          (select_id_draw_object K (select_id_draw_object K st v3d ob res_handle select_mode initial_offset) v3d2 ob2 res_handle2 select_mode2
          (select_id_draw_object K st v3d ob res_handle select_mode initial_offset).r_vert_offset) k2 id) := by
  have h_pos0 : 0 < initial_offset := by
    simpa [select_id_draw_object_assert] using h_pos
  have mono := offsets_monotone K st v3d ob res_handle select_mode initial_offset h_mesh
    hF hE hV h_fit
  have ocF := offset_constants_face_flat K st v3d ob res_handle select_mode initial_offset h_mesh
  have ocU := offset_constants_face_uniform K st v3d ob res_handle select_mode initial_offset
    h_mesh
  have ocE := offset_constants_edge K st v3d ob res_handle select_mode initial_offset h_mesh
  have ocV := offset_constants_vert K st v3d ob res_handle select_mode initial_offset h_mesh
  have e1 := edge_offset_eq K st v3d ob res_handle select_mode initial_offset h_mesh
  have f1 := face_offset_eq K st v3d ob res_handle select_mode initial_offset h_mesh
  have key : ∀ off : Nat, initial_offset ≤ off →
      off ≤ (select_id_draw_object K st v3d ob res_handle select_mode initial_offset).r_vert_offset →
      int_of_uint off ≠ 0 ∧
      ∃ off2 : Nat, int_of_uint off = int_of_uint off2 ∧ initial_offset ≤ off2 ∧
        off2 ≤ (select_id_draw_object K st v3d ob res_handle select_mode initial_offset).r_vert_offset ∧
        (off2 < 2147483648 → (initial_offset : Int) ≤ int_of_uint off ∧ 0 < int_of_uint off) := by
    intro off h1 h2
    refine ⟨int_of_uint_ne_zero off (by omega) (by omega), off, rfl, h1, h2, ?_⟩
    intro h3
    rw [int_of_uint_eq_self off h3]
    omega
  refine ⟨⟨mono.1, by omega⟩, ⟨by omega, by omega⟩, ⟨by omega, by omega⟩, ?_, ?_, ?_⟩
  · intro c hc
    unfold issued_offset_constants at hc
    rw [ocF, ocU, ocE, ocV] at hc
    simp only [List.append_nil, List.mem_append] at hc
    rcases hc with (hc | hc) | hc
    · split_ifs at hc
      · rw [List.mem_singleton] at hc
        subst hc
        exact key initial_offset le_rfl (by omega)
      · simp at hc
    · split_ifs at hc
      · rw [List.mem_singleton] at hc
        subst hc
        exact key _ mono.1 (by omega)
      · simp at hc
    · split_ifs at hc
      · rw [List.mem_singleton] at hc
        subst hc
        exact key _ (by omega) mono.2.2.1
      · simp at hc
  · intro h_face h_edge h_vert
    rw [ocV, if_pos h_vert, e1, if_neg (by simpa using h_edge), f1,
      if_neg (by simpa using h_face)]
  · intro v3d2 ob2 res_handle2 select_mode2 h_mesh2 hF2 hE2 hV2 h_fit2
    have mono2 := offsets_monotone K (select_id_draw_object K st v3d ob res_handle select_mode initial_offset) v3d2 ob2 res_handle2 select_mode2
      (select_id_draw_object K st v3d ob res_handle select_mode initial_offset).r_vert_offset h_mesh2 hF2 hE2 hV2 h_fit2
    refine ⟨by simp [select_id_draw_object_assert]; omega, ?_⟩
    intro id k1 k2 hk1 hk2
    cases k1 <;> cases k2 <;> simp only [in_id_range] at hk1 hk2 <;> omega

/-- Witness of amended C9 on a mesh of 6 faces, 12 edges and 8 vertices in
vertex select mode with initial offset 100. -/
theorem select_id_draw_object_offsets_positive_witness :
    sample_ob.type = sample_env.OB_MESH ∧
    select_id_draw_object_assert 100 = true ∧
    0 ≤ face_count sample_ob.data ∧ 0 ≤ edge_count sample_ob.data ∧
    0 ≤ vert_count sample_ob.data ∧
    (((100 : Nat) : Int) + face_count sample_ob.data + edge_count sample_ob.data
      + vert_count sample_ob.data < 4294967296) ∧
    (100 ≤ (select_id_draw_object sample_env sample_state sample_v3d sample_ob 0 1
        100).r_vert_offset ∧
      0 < (select_id_draw_object sample_env sample_state sample_v3d sample_ob 0 1
        100).r_vert_offset) :=
  ⟨by decide, by decide, by decide, by decide, by decide, by decide,
    (select_id_draw_object_offsets_positive sample_env sample_state sample_v3d sample_ob 0 1
      100 (by decide) (by decide) (by decide) (by decide) (by decide) (by decide)).2.2.1⟩

end SelectDrawUtils
